import Mathlib

/-!
Verification of the `study` retrieval-augmented-generation program
(single Go source file `main.go`).

Modelling conventions, in order of appearance in the source:

* Go `float64` is embedded as `GoFloat`: an exact real number, `+Inf`,
  `-Inf`, or `NaN`.  Rounding is idealised away (finite values are exact
  reals); the special-value and comparison rules follow IEEE-754 as Go
  implements them (`NaN` propagates, `0/0 = NaN`, comparisons with `NaN`
  are false).  Signed zero is idealised to a single zero.
* `encoding/json` is split in two layers.  The byte-level grammar is
  abstracted: a request body or a completion content string is given to
  the model already lexed, as `Option Json` (`none` = text that is not
  valid JSON, which makes `json.Unmarshal` return a syntax error).  The
  unmarshalling semantics on the AST (case-insensitive field matching,
  last duplicate key wins, missing field or `null` leaves the zero
  value, type mismatch is an error) is modelled exactly by the
  `decode...` functions below.  JSON number literals are decimal, hence
  rationals.
* The three fatal behaviours of the program are the values of
  `GoOutcome`: `fatalExit` for every `log.Fatalln` / `log.Fatalf`
  (which terminates the whole process), `panicked` for runtime panics
  (out-of-range indexing), `ok` for a normal return.
* The network is an external collaborator: an HTTP POST is a function
  from the request (here: the rendered prompt, or the embedded text)
  to an `Except Unit HttpResponse`; `Except.error` models a transport
  failure of `client.Do`.
* `html/template` rendering of the two prompt templates is modelled as
  the corresponding pure string concatenation, with `htmlEscape` for
  the substituted values (the five-character HTML escaping used by Go
  templates in a text context).  The HTML index page (presentation
  layer) is not modelled; the `Handler` model returns the data that
  would be rendered into it.
-/

/-- A Go `float64`: an exact real, one of the two infinities, or NaN. -/
inductive GoFloat where
  | nan : GoFloat
  | inf : GoFloat
  | ninf : GoFloat
  | real : ℝ → GoFloat

/-- Go `+` on `float64`. -/
noncomputable def fadd : GoFloat → GoFloat → GoFloat
  | GoFloat.nan, _ => GoFloat.nan
  | _, GoFloat.nan => GoFloat.nan
  | GoFloat.inf, GoFloat.ninf => GoFloat.nan
  | GoFloat.ninf, GoFloat.inf => GoFloat.nan
  | GoFloat.inf, _ => GoFloat.inf
  | _, GoFloat.inf => GoFloat.inf
  | GoFloat.ninf, _ => GoFloat.ninf
  | _, GoFloat.ninf => GoFloat.ninf
  | GoFloat.real x, GoFloat.real y => GoFloat.real (x + y)

/-- Go `*` on `float64`. -/
noncomputable def fmul : GoFloat → GoFloat → GoFloat
  | GoFloat.nan, _ => GoFloat.nan
  | _, GoFloat.nan => GoFloat.nan
  | GoFloat.inf, GoFloat.inf => GoFloat.inf
  | GoFloat.inf, GoFloat.ninf => GoFloat.ninf
  | GoFloat.ninf, GoFloat.inf => GoFloat.ninf
  | GoFloat.ninf, GoFloat.ninf => GoFloat.inf
  | GoFloat.inf, GoFloat.real x =>
      if x = 0 then GoFloat.nan else if 0 < x then GoFloat.inf else GoFloat.ninf
  | GoFloat.real x, GoFloat.inf =>
      if x = 0 then GoFloat.nan else if 0 < x then GoFloat.inf else GoFloat.ninf
  | GoFloat.ninf, GoFloat.real x =>
      if x = 0 then GoFloat.nan else if 0 < x then GoFloat.ninf else GoFloat.inf
  | GoFloat.real x, GoFloat.ninf =>
      if x = 0 then GoFloat.nan else if 0 < x then GoFloat.ninf else GoFloat.inf
  | GoFloat.real x, GoFloat.real y => GoFloat.real (x * y)

/-- Go `/` on `float64` (`0/0 = NaN`, `x/0 = ±Inf` for finite `x ≠ 0`). -/
noncomputable def fdiv : GoFloat → GoFloat → GoFloat
  | GoFloat.nan, _ => GoFloat.nan
  | _, GoFloat.nan => GoFloat.nan
  | GoFloat.inf, GoFloat.inf => GoFloat.nan
  | GoFloat.inf, GoFloat.ninf => GoFloat.nan
  | GoFloat.ninf, GoFloat.inf => GoFloat.nan
  | GoFloat.ninf, GoFloat.ninf => GoFloat.nan
  | GoFloat.inf, GoFloat.real y => if 0 ≤ y then GoFloat.inf else GoFloat.ninf
  | GoFloat.ninf, GoFloat.real y => if 0 ≤ y then GoFloat.ninf else GoFloat.inf
  | GoFloat.real _, GoFloat.inf => GoFloat.real 0
  | GoFloat.real _, GoFloat.ninf => GoFloat.real 0
  | GoFloat.real x, GoFloat.real y =>
      if y = 0 then
        if x = 0 then GoFloat.nan else if 0 < x then GoFloat.inf else GoFloat.ninf
      else GoFloat.real (x / y)

/-- Go `math.Sqrt` (`Sqrt` of a negative number or `-Inf` is NaN). -/
noncomputable def fsqrt : GoFloat → GoFloat
  | GoFloat.nan => GoFloat.nan
  | GoFloat.inf => GoFloat.inf
  | GoFloat.ninf => GoFloat.nan
  | GoFloat.real x => if x < 0 then GoFloat.nan else GoFloat.real (Real.sqrt x)

/-- Go `>` on `float64`: any comparison involving NaN is false. -/
noncomputable def fgt : GoFloat → GoFloat → Bool
  | GoFloat.nan, _ => false
  | _, GoFloat.nan => false
  | GoFloat.inf, GoFloat.inf => false
  | GoFloat.inf, _ => true
  | GoFloat.ninf, _ => false
  | GoFloat.real _, GoFloat.inf => false
  | GoFloat.real _, GoFloat.ninf => true
  | GoFloat.real x, GoFloat.real y => if y < x then true else false

/-- A JSON document, as produced by the byte-level grammar of
`encoding/json` (which is abstracted; see the header comment). -/
inductive Json where
  | null : Json
  | bool : Bool → Json
  | num : ℚ → Json
  | str : String → Json
  | arr : List Json → Json
  | obj : List (String × Json) → Json

/-- The `Reference` struct of `main.go` (fields `File`, `Exerpt`,
`Embedding`). -/
structure Reference where
  file : String
  exerpt : String
  embedding : List GoFloat

/-- The `QueryExpansionResponse` struct (field `Queries`). -/
structure QueryExpansionResponse where
  queries : List String

/-- The `Citation` struct (fields `Claim`, `References`). -/
structure Citation where
  claim : String
  references : List Reference

/-- The `CitedResponse` struct (fields `Commentary`, `Citations`). -/
structure CitedResponse where
  commentary : String
  citations : List Citation

/-- The `CompletionChoice` struct: its `Message` is a
`map[string]string`, modelled as an association list (Go map decoding
keeps the last value written for a duplicate key; see `mapGet`). -/
structure CompletionChoice where
  message : List (String × String)

/-- The `CompletionResponse` struct (field `Choices`). -/
structure CompletionResponse where
  choices : List CompletionChoice

/-- The `EmbeddingData` struct (field `Embedding`). -/
structure EmbeddingData where
  embedding : List GoFloat

/-- The `EmbeddingResponse` struct (field `Data`). -/
structure EmbeddingResponse where
  data : List EmbeddingData

/-- Matching of struct fields by `encoding/json` is done case-insensitively; the matching is case-insensitive
(compared here by lower-casing character lists; the field names in
play are ASCII). -/
def keyMatches (k name : String) : Bool :=
  k.toList.map Char.toLower == name.toList.map Char.toLower

/-- Object-key lookup as `encoding/json` performs it when filling a
struct field: keys are scanned in document order, a later duplicate
overwrites an earlier one, so the last matching key wins. -/
def lookupField (fields : List (String × Json)) (name : String) : Option Json :=
  fields.foldl (fun acc f => if keyMatches f.1 name then some f.2 else acc) none

/-- Go map access `m[k]` on the decoded `map[string]string`: last
duplicate key wins, a missing key yields the zero value `""`. -/
def mapGet (m : List (String × String)) (k : String) : String :=
  (m.foldl (fun acc p => if p.1 == k then some p.2 else acc) none).getD ""

/-- Unmarshal a JSON value into a Go `string`; `null` leaves the zero
value and a non-string value is an `UnmarshalTypeError`. -/
def decodeString : Json → Except Unit String
  | Json.null => Except.ok ""
  | Json.str s => Except.ok s
  | _ => Except.error ()

/-- Unmarshal a JSON value into a Go `float64` (`null` leaves `0`). -/
noncomputable def decodeFloat : Json → Except Unit GoFloat
  | Json.null => Except.ok (GoFloat.real 0)
  | Json.num q => Except.ok (GoFloat.real (q : ℝ))
  | _ => Except.error ()

/-- Unmarshal a JSON value into a Go slice: `null` gives the nil
slice, an array decodes elementwise, anything else is an error. -/
def decodeList {α : Type} (dec : Json → Except Unit α) : Json → Except Unit (List α)
  | Json.null => Except.ok []
  | Json.arr xs => xs.mapM dec
  | _ => Except.error ()

/-- Unmarshal a struct field: a missing field leaves the zero value. -/
def decodeField {α : Type} (dec : Json → Except Unit α) (zero : α)
    (fields : List (String × Json)) (name : String) : Except Unit α :=
  match lookupField fields name with
  | none => Except.ok zero
  | some j => dec j

/-- Unmarshal into the `Reference` struct. -/
noncomputable def decodeReference : Json → Except Unit Reference
  | Json.null => Except.ok ⟨"", "", []⟩
  | Json.obj fields => do
      let file ← decodeField decodeString "" fields "file"
      let exerpt ← decodeField decodeString "" fields "exerpt"
      let embedding ← decodeField (decodeList decodeFloat) [] fields "embedding"
      Except.ok ⟨file, exerpt, embedding⟩
  | _ => Except.error ()

/-- Unmarshal into the `Citation` struct. -/
noncomputable def decodeCitation : Json → Except Unit Citation
  | Json.null => Except.ok ⟨"", []⟩
  | Json.obj fields => do
      let claim ← decodeField decodeString "" fields "claim"
      let refs ← decodeField (decodeList decodeReference) [] fields "references"
      Except.ok ⟨claim, refs⟩
  | _ => Except.error ()

/-- Unmarshal into the `CitedResponse` struct. -/
noncomputable def decodeCitedResponse : Json → Except Unit CitedResponse
  | Json.null => Except.ok ⟨"", []⟩
  | Json.obj fields => do
      let commentary ← decodeField decodeString "" fields "commentary"
      let citations ← decodeField (decodeList decodeCitation) [] fields "citations"
      Except.ok ⟨commentary, citations⟩
  | _ => Except.error ()

/-- Unmarshal into the `QueryExpansionResponse` struct. -/
def decodeQueryExpansionResponse : Json → Except Unit QueryExpansionResponse
  | Json.null => Except.ok ⟨[]⟩
  | Json.obj fields => do
      let qs ← decodeField (decodeList decodeString) [] fields "queries"
      Except.ok ⟨qs⟩
  | _ => Except.error ()

/-- Unmarshal a JSON value into a Go `map[string]string`. -/
def decodeStringMap : Json → Except Unit (List (String × String))
  | Json.null => Except.ok []
  | Json.obj fields => fields.mapM (fun f => (decodeString f.2).map (fun v => (f.1, v)))
  | _ => Except.error ()

/-- Unmarshal into the `CompletionChoice` struct. -/
def decodeCompletionChoice : Json → Except Unit CompletionChoice
  | Json.null => Except.ok ⟨[]⟩
  | Json.obj fields => do
      let m ← decodeField decodeStringMap [] fields "message"
      Except.ok ⟨m⟩
  | _ => Except.error ()

/-- Unmarshal into the `CompletionResponse` struct. -/
def decodeCompletionResponse : Json → Except Unit CompletionResponse
  | Json.null => Except.ok ⟨[]⟩
  | Json.obj fields => do
      let cs ← decodeField (decodeList decodeCompletionChoice) [] fields "choices"
      Except.ok ⟨cs⟩
  | _ => Except.error ()

/-- Unmarshal into the `EmbeddingData` struct. -/
noncomputable def decodeEmbeddingData : Json → Except Unit EmbeddingData
  | Json.null => Except.ok ⟨[]⟩
  | Json.obj fields => do
      let e ← decodeField (decodeList decodeFloat) [] fields "embedding"
      Except.ok ⟨e⟩
  | _ => Except.error ()

/-- Unmarshal into the `EmbeddingResponse` struct. -/
noncomputable def decodeEmbeddingResponse : Json → Except Unit EmbeddingResponse
  | Json.null => Except.ok ⟨[]⟩
  | Json.obj fields => do
      let d ← decodeField (decodeList decodeEmbeddingData) [] fields "data"
      Except.ok ⟨d⟩
  | _ => Except.error ()

/-- The observable outcome of running a piece of the Go program:
`fatalExit` models `log.Fatalln` / `log.Fatalf` (the process exits),
`panicked` models a runtime panic (out-of-range indexing), `ok` is a
normal return. -/
inductive GoOutcome (α : Type) where
  | fatalExit : GoOutcome α
  | panicked : GoOutcome α
  | ok : α → GoOutcome α

/-- An HTTP response from the provider; the response bytes are carried
already lexed (`none` = a body that is not valid JSON). -/
structure HttpResponse where
  status : Nat
  body : Option Json

/-- The `doPost` function (main.go:237-264): a transport failure or a non-200
status calls `log.Fatalf`, otherwise the body bytes are returned. -/
def doPost : Except Unit HttpResponse → GoOutcome (Option Json)
  | Except.error _ => GoOutcome.fatalExit
  | Except.ok r => if r.status = 200 then GoOutcome.ok r.body else GoOutcome.fatalExit

/-- The `fromJSON` function (main.go:227-235): `json.Unmarshal`, with `log.Fatalln`
on any unmarshalling error.  `none` is unparseable text (a syntax
error), a decode error is an `UnmarshalTypeError`. -/
def fromJSON {α : Type} (dec : Json → Except Unit α) : Option Json → GoOutcome α
  | none => GoOutcome.fatalExit
  | some j =>
      match dec j with
      | Except.error _ => GoOutcome.fatalExit
      | Except.ok v => GoOutcome.ok v

/-- The method `EmbeddingResponse.Embedding()` (main.go:191-193): indexes
`Data[0]`, panicking when `Data` is empty. -/
def embeddingOf (r : EmbeddingResponse) : GoOutcome (List GoFloat) :=
  match r.data with
  | [] => GoOutcome.panicked
  | d :: _ => GoOutcome.ok d.embedding

/-- The `GenerateEmbedding` function (main.go:370-377), with the provider's reply
to the POST given as input: posts, unmarshals an `EmbeddingResponse`,
and extracts `Data[0].Embedding`. -/
noncomputable def GenerateEmbedding (resp : Except Unit HttpResponse) : GoOutcome (List GoFloat) :=
  match doPost resp with
  | GoOutcome.fatalExit => GoOutcome.fatalExit
  | GoOutcome.panicked => GoOutcome.panicked
  | GoOutcome.ok body =>
      match fromJSON decodeEmbeddingResponse body with
      | GoOutcome.fatalExit => GoOutcome.fatalExit
      | GoOutcome.panicked => GoOutcome.panicked
      | GoOutcome.ok er => embeddingOf er

/-- The method `CompletionResponse.Content()` (main.go:167-169): indexes
`Choices[0]` (panicking when `Choices` is empty) and reads the
`"content"` key of the message map (missing key gives `""`). -/
def contentOf (r : CompletionResponse) : GoOutcome String :=
  match r.choices with
  | [] => GoOutcome.panicked
  | c :: _ => GoOutcome.ok (mapGet c.message "content")

/-- The `GenerateCompletion` function (main.go:357-367): builds the completion
request for the prompt `text`, posts it (the provider is the function
`complete`, from the user prompt to the HTTP exchange's result — the
request's model name, system prompt and JSON response format only
parameterise that external call), unmarshals a `CompletionResponse`
and returns its content string. -/
def GenerateCompletion (complete : String → Except Unit HttpResponse)
    (text : String) : GoOutcome String :=
  match doPost (complete text) with
  | GoOutcome.fatalExit => GoOutcome.fatalExit
  | GoOutcome.panicked => GoOutcome.panicked
  | GoOutcome.ok body =>
      match fromJSON decodeCompletionResponse body with
      | GoOutcome.fatalExit => GoOutcome.fatalExit
      | GoOutcome.panicked => GoOutcome.panicked
      | GoOutcome.ok cr => contentOf cr

/-- The five-character HTML escaping applied by `html/template` to an
interpolated value in a text context (`template.HTMLEscapeString`):
`&`, `<`, `>`, the double quote (code 34) and the apostrophe
(code 39). -/
def htmlEscapeChar (c : Char) : String :=
  if c = '&' then "&amp;"
  else if c = '<' then "&lt;"
  else if c = '>' then "&gt;"
  else if c.toNat = 34 then "&#34;"
  else if c.toNat = 39 then "&#39;"
  else String.singleton c

/-- HTML-escape a whole interpolated string. -/
def htmlEscape (s : String) : String :=
  String.join (s.toList.map htmlEscapeChar)

/-- The rendering of `TMPL_PROMPT_EXPAND_QUERY` (main.go:41-56) at a
given query: static template text with the escaped query substituted
for the `.Query` action. -/
def RenderExpandPrompt (query : String) : String :=
  "\nINSTRUCTIONS\n\nExpand the following QUERY. Provide 10 additional queries you would use to\ndiversify your knowledge on the topic.\n\nQUERY\n\n" ++
  htmlEscape query ++
  "\n\nJSON RESPONSE TEMPLATE\n\n\x7b\n\t\"queries\": [\"<query 1>\", \"<query 2>\", \"<query 3>\"]\n\x7d\n"

/-- The rendering of `TMPL_PROMPT_RESPONSE` (main.go:58-91) at a query
and a reference list: static text, the escaped query, one block per
reference (the `range` action), and the static JSON response template.
The instruction line about missing references is unconditional static
text. -/
def RenderResponsePrompt (query : String) (refs : List Reference) : String :=
  "\nINSTRUCTIONS\n\nRespond to the following QUERY using REFERENCES below. Cite the a file in the\nREFERENCES that contains the fact used. Provide uncited commentary separately.\n" ++
  "If NO REFERENCES are provided, it is impossible to provide citations." ++
  "\n\nQUERY\n\n" ++
  htmlEscape query ++
  "\n\nREFERENCES\n\n" ++
  String.join (refs.map (fun r =>
    "\n- File: " ++ htmlEscape r.file ++ "\n- Exerpt: " ++ htmlEscape r.exerpt ++ "\n")) ++
  "\n\nJSON RESPONSE TEMPLATE\n\n\x7b\n\t\"commentary\": \"<summary commentary without citations>\",\n\t\"citations\": [\n\t\t\x7b\n\t\t\t\"claim\": \"<summary claim 1>\",\n\t\t\t\"references\": [\n\t\t\t\t\x7b\"exerpt\": \"<exerpt>\", \"file\": \"<file-name-1.txt>\"\x7d,\n\t\t\t\t\x7b\"exerpt\": \"<exerpt>\", \"file\": \"<file-name-2.txt>\"\x7d,\n\t\t\t\t\x7b\"exerpt\": \"<exerpt>\", \"file\": \"<file-name-3.txt>\"\x7d,\n\t\t\t]\n\t\t\x7d,\n\t]\n\x7d\n"

/-- The `ExpandQuery` function (main.go:379-389): renders the expansion prompt,
obtains a completion, and unmarshals the content string into a
`QueryExpansionResponse`.  `contentLex` is the byte-level JSON grammar
applied to the content string (`none` = not valid JSON). -/
def ExpandQuery (complete : String → Except Unit HttpResponse)
    (contentLex : String → Option Json) (query : String) :
    GoOutcome QueryExpansionResponse :=
  match GenerateCompletion complete (RenderExpandPrompt query) with
  | GoOutcome.fatalExit => GoOutcome.fatalExit
  | GoOutcome.panicked => GoOutcome.panicked
  | GoOutcome.ok s => fromJSON decodeQueryExpansionResponse (contentLex s)

/-- The tail of `GenerateCompletionWithCitations` (main.go:397-399):
`fromJSON([]byte(response), &citedResponse)` applied to the outcome of
the completion call. -/
noncomputable def ParseCitedContent (contentLex : String → Option Json) :
    GoOutcome String → GoOutcome CitedResponse
  | GoOutcome.fatalExit => GoOutcome.fatalExit
  | GoOutcome.panicked => GoOutcome.panicked
  | GoOutcome.ok s => fromJSON decodeCitedResponse (contentLex s)

/-- The `GenerateCompletionWithCitations` function (main.go:391-402): renders the
response prompt for the query and candidate references, obtains a
completion, and unmarshals the content into a `CitedResponse`. -/
noncomputable def GenerateCompletionWithCitations
    (complete : String → Except Unit HttpResponse)
    (contentLex : String → Option Json)
    (query : String) (refs : List Reference) : GoOutcome CitedResponse :=
  ParseCitedContent contentLex
    (GenerateCompletion complete (RenderResponsePrompt query refs))

/-- The accumulation loop of `CalculateSimilarity` (main.go:295-299):
for `i < len(a)`, add `a[i]*b[i]`, `a[i]*a[i]`, `b[i]*b[i]` to the
three running sums.  Structured over the two lists in step; the caller
guarantees `len(a) ≤ len(b)` (otherwise `b[i]` panics, see
`CalculateSimilarity`). -/
noncomputable def simLoop : List GoFloat → List GoFloat →
    GoFloat → GoFloat → GoFloat → GoFloat × GoFloat × GoFloat
  | x :: xs, y :: ys, dot, am, bm =>
      simLoop xs ys (fadd dot (fmul x y)) (fadd am (fmul x x)) (fadd bm (fmul y y))
  | _, _, dot, am, bm => (dot, am, bm)

/-- The `CalculateSimilarity` function (main.go:290-305): loops `i` over `0 ..
len(a)-1` reading `b[i]` with no dimensionality check, so `len(a) >
len(b)` is an out-of-range panic (`none`); otherwise returns
`dot / (sqrt(aMag) * sqrt(bMag))`. -/
noncomputable def CalculateSimilarity (a b : List GoFloat) : Option GoFloat :=
  if a.length ≤ b.length then
    match simLoop a b (GoFloat.real 0) (GoFloat.real 0) (GoFloat.real 0) with
    | (dot, am, bm) => some (fdiv dot (fmul (fsqrt am) (fsqrt bm)))
  else none

/-- The global `similarityThreshold` (main.go:110), `0.5`. -/
noncomputable def similarityThreshold : GoFloat := GoFloat.real (1 / 2)

/-- The scan loop of `FindReference` (main.go:340-351), with the
threshold explicit.  The inner loop over `result` (main.go:342-346)
only executes `continue` statements of itself and changes no state, so
it has no observable effect and its body is not repeated here (its
intended deduplication never happens); the similarity test appends the
reference to `result` when the score exceeds the threshold.  A panic
inside `CalculateSimilarity` aborts the whole scan (`none`). -/
noncomputable def FindReferenceLoop (threshold : GoFloat) (e : List GoFloat) :
    List Reference → List Reference → Option (List Reference)
  | result, [] => some result
  | result, reference :: rest =>
      match CalculateSimilarity e reference.embedding with
      | none => none
      | some s =>
          if fgt s threshold then FindReferenceLoop threshold e (result ++ [reference]) rest
          else FindReferenceLoop threshold e result rest

/-- The `FindReference` function (main.go:336-354): generates the query's
embedding, then scans the stored references with the global
threshold. -/
noncomputable def FindReference (embed : String → Except Unit HttpResponse)
    (store : List Reference) (query : String) : GoOutcome (List Reference) :=
  match GenerateEmbedding (embed query) with
  | GoOutcome.fatalExit => GoOutcome.fatalExit
  | GoOutcome.panicked => GoOutcome.panicked
  | GoOutcome.ok e =>
      match FindReferenceLoop similarityThreshold e [] store with
      | none => GoOutcome.panicked
      | some result => GoOutcome.ok result

/-- The retrieval loop of `Handler` (main.go:411-414): for each
expanded query, append `FindReference(query)...` to the local
`references` slice. -/
noncomputable def RetrieveAll (embed : String → Except Unit HttpResponse)
    (store : List Reference) : List String → List Reference → GoOutcome (List Reference)
  | [], acc => GoOutcome.ok acc
  | q :: qs, acc =>
      match FindReference embed store q with
      | GoOutcome.fatalExit => GoOutcome.fatalExit
      | GoOutcome.panicked => GoOutcome.panicked
      | GoOutcome.ok result => RetrieveAll embed store qs (acc ++ result)

/-- The HTTP method of a request to `Handler`. -/
inductive HttpMethod where
  | get : HttpMethod
  | post : HttpMethod
  | other : HttpMethod

/-- The `Handler` function (main.go:404-428), returning the `Response` data that is
rendered into `TMPL_INDEX` (`none` for the GET form page and for the
405 response; the HTML rendering itself is presentation and not
modelled).  On POST: expand the query, retrieve references for each
expanded query — note the loop ranges over `ExpandQuery(query).Queries`
only — and compose the cited response.  The local `references`
variable (main.go:411) shadows the global fact store, which is never
written. -/
noncomputable def Handler (complete : String → Except Unit HttpResponse)
    (contentLex : String → Option Json)
    (embed : String → Except Unit HttpResponse)
    (store : List Reference) (method : HttpMethod) (query : String) :
    GoOutcome (Option CitedResponse) :=
  match method with
  | HttpMethod.post =>
      match ExpandQuery complete contentLex query with
      | GoOutcome.fatalExit => GoOutcome.fatalExit
      | GoOutcome.panicked => GoOutcome.panicked
      | GoOutcome.ok expansion =>
          match RetrieveAll embed store expansion.queries [] with
          | GoOutcome.fatalExit => GoOutcome.fatalExit
          | GoOutcome.panicked => GoOutcome.panicked
          | GoOutcome.ok refs =>
              match GenerateCompletionWithCitations complete contentLex query refs with
              | GoOutcome.fatalExit => GoOutcome.fatalExit
              | GoOutcome.panicked => GoOutcome.panicked
              | GoOutcome.ok cited => GoOutcome.ok (some cited)
  | HttpMethod.get => GoOutcome.ok none
  | HttpMethod.other => GoOutcome.ok none

/-- A directory entry seen by `LoadReferences` (`os.ReadDir` output
plus the file's content as read by `os.ReadFile`; the I/O errors of
those two calls, which `log.Fatal`, are not modelled further). -/
structure DirEntry where
  name : String
  isDir : Bool
  content : String

/-- The `LoadReferences` function (main.go:307-334): skip directories; for each
regular file generate an embedding of its content and append a
`Reference` to the store. -/
noncomputable def LoadReferences (embed : String → Except Unit HttpResponse) :
    List DirEntry → List Reference → GoOutcome (List Reference)
  | [], acc => GoOutcome.ok acc
  | f :: fs, acc =>
      if f.isDir then LoadReferences embed fs acc
      else
        match GenerateEmbedding (embed f.content) with
        | GoOutcome.fatalExit => GoOutcome.fatalExit
        | GoOutcome.panicked => GoOutcome.panicked
        | GoOutcome.ok e => LoadReferences embed fs (acc ++ [⟨f.name, f.content, e⟩])

/-- The process state relevant to query handling: the global
`references` fact store (main.go:112), populated by `LoadReferences`
before the server starts. -/
structure ServerState where
  references : List Reference

/-- One request served by `Handler`, with the global state threaded
explicitly: `Handler` reads the store and declares a fresh local
`references` variable (main.go:411) that shadows the global, so the
state component is returned unchanged. -/
noncomputable def HandlerStep (complete : String → Except Unit HttpResponse)
    (contentLex : String → Option Json)
    (embed : String → Except Unit HttpResponse)
    (s : ServerState) (method : HttpMethod) (query : String) :
    ServerState × GoOutcome (Option CitedResponse) :=
  (s, Handler complete contentLex embed s.references method query)

/-- A sequence of requests served one after the other, each receiving
the state left by the previous one. -/
noncomputable def ServeRequests (complete : String → Except Unit HttpResponse)
    (contentLex : String → Option Json)
    (embed : String → Except Unit HttpResponse) :
    ServerState → List (HttpMethod × String) → ServerState
  | s, [] => s
  | s, r :: rs =>
      ServeRequests complete contentLex embed
        (HandlerStep complete contentLex embed s r.1 r.2).1 rs

/-- Membership of an identifier in the fact store (the identifier
lookup the Citation Verifier of the specification would need; the
program itself never performs it). -/
def storeHas (store : List Reference) (file : String) : Bool :=
  store.any (fun r => r.file == file)

/-- The test applied to a stored reference by the scan of
`FindReference`: its similarity score against the query embedding,
compared with `>` against the threshold (false also when the score
computation would panic). -/
noncomputable def passesThreshold (threshold : GoFloat) (e : List GoFloat)
    (r : Reference) : Bool :=
  match CalculateSimilarity e r.embedding with
  | some s => fgt s threshold
  | none => false

theorem fadd_nan_right (x : GoFloat) : fadd x GoFloat.nan = GoFloat.nan := by
  cases x <;> rfl

theorem fadd_real (x y : ℝ) :
    fadd (GoFloat.real x) (GoFloat.real y) = GoFloat.real (x + y) := rfl

theorem fmul_real (x y : ℝ) :
    fmul (GoFloat.real x) (GoFloat.real y) = GoFloat.real (x * y) := rfl

/-- Multiplying the float zero by anything gives NaN (for NaN and the
infinities) or the real product. -/
theorem fmul_zero_left (y : GoFloat) :
    fmul (GoFloat.real 0) y = GoFloat.nan ∨
      ∃ v : ℝ, y = GoFloat.real v ∧ fmul (GoFloat.real 0) y = GoFloat.real (0 * v) := by
  cases y with
  | nan => exact Or.inl rfl
  | inf => exact Or.inl (by simp [fmul])
  | ninf => exact Or.inl (by simp [fmul])
  | real v => exact Or.inr ⟨v, rfl, rfl⟩

theorem fmul_zero_right (y : GoFloat) :
    fmul y (GoFloat.real 0) = GoFloat.nan ∨
      ∃ v : ℝ, y = GoFloat.real v ∧ fmul y (GoFloat.real 0) = GoFloat.real (v * 0) := by
  cases y with
  | nan => exact Or.inl rfl
  | inf => exact Or.inl (by simp [fmul])
  | ninf => exact Or.inl (by simp [fmul])
  | real v => exact Or.inr ⟨v, rfl, rfl⟩

theorem fsqrt_real_zero : fsqrt (GoFloat.real 0) = GoFloat.real 0 := by
  simp [fsqrt, Real.sqrt_zero]

theorem fsqrt_real_nonneg (r : ℝ) (h : 0 ≤ r) :
    fsqrt (GoFloat.real r) = GoFloat.real (Real.sqrt r) := by
  simp [fsqrt, not_lt.mpr h]

theorem fdiv_zero_zero :
    fdiv (GoFloat.real 0) (GoFloat.real 0) = GoFloat.nan := by
  simp [fdiv]

theorem fgt_nan_left (t : GoFloat) : fgt GoFloat.nan t = false := by
  cases t <;> rfl

/-- A similarity call that is dimensionally safe returns a value. -/
theorem calc_sim_some (a b : List GoFloat) (h : a.length ≤ b.length) :
    ∃ s, CalculateSimilarity a b = some s := by
  unfold CalculateSimilarity
  rw [if_pos h]
  exact ⟨_, rfl⟩

/-- The scan loop of `FindReference`, started from any accumulator, is
the accumulator followed by the threshold filter of the store, in
store order — provided every scored pair is dimensionally safe. -/
theorem findLoop_filter_aux (threshold : GoFloat) (e : List GoFloat)
    (store : List Reference) :
    ∀ acc : List Reference, (∀ r ∈ store, e.length ≤ r.embedding.length) →
    FindReferenceLoop threshold e acc store
      = some (acc ++ store.filter (passesThreshold threshold e)) := by
  induction store with
  | nil => intro acc _; simp [FindReferenceLoop]
  | cons r rest ih =>
    intro acc h
    obtain ⟨s, hs⟩ := calc_sim_some e r.embedding (h r (by simp))
    have hrest : ∀ x ∈ rest, e.length ≤ x.embedding.length :=
      fun x hx => h x (by simp [hx])
    have hpass : passesThreshold threshold e r = fgt s threshold := by
      simp [passesThreshold, hs]
    cases hf : fgt s threshold with
    | true =>
      rw [FindReferenceLoop, hs]
      simp only [hf, if_true]
      rw [ih (acc ++ [r]) hrest, List.filter_cons, hpass, hf]
      simp
    | false =>
      rw [FindReferenceLoop, hs]
      simp only [hf, Bool.false_eq_true, if_false]
      rw [ih acc hrest, List.filter_cons, hpass, hf]
      simp

/-- C6: for every query embedding and threshold (with the store
invariant that every stored embedding has the query embedding's
dimension), the similarity lookup returns exactly the stored
references whose similarity score is strictly greater than the
threshold, in store order — it is the filter of the store by the
threshold test. -/
theorem similar_filters_store_order (threshold : GoFloat) (e : List GoFloat)
    (store : List Reference)
    (h : ∀ r ∈ store, r.embedding.length = e.length) :
    FindReferenceLoop threshold e [] store
      = some (store.filter (passesThreshold threshold e)) := by
  have := findLoop_filter_aux threshold e store []
    (fun r hr => le_of_eq (h r hr).symm)
  simpa using this

/-- Witness for C6 at a two-fact store and a concrete query embedding. -/
theorem similar_filters_store_order_witness :
    (∀ r ∈ ([⟨"a.txt", "A", [GoFloat.real 1, GoFloat.real 0]⟩,
             ⟨"b.txt", "B", [GoFloat.real 0, GoFloat.real 1]⟩] : List Reference),
        r.embedding.length = ([GoFloat.real 1, GoFloat.real 0] : List GoFloat).length)
    ∧ FindReferenceLoop similarityThreshold [GoFloat.real 1, GoFloat.real 0] []
        [⟨"a.txt", "A", [GoFloat.real 1, GoFloat.real 0]⟩,
         ⟨"b.txt", "B", [GoFloat.real 0, GoFloat.real 1]⟩]
      = some (List.filter
          (passesThreshold similarityThreshold [GoFloat.real 1, GoFloat.real 0])
          [⟨"a.txt", "A", [GoFloat.real 1, GoFloat.real 0]⟩,
           ⟨"b.txt", "B", [GoFloat.real 0, GoFloat.real 1]⟩]) :=
  ⟨by simp, similar_filters_store_order _ _ _ (by simp)⟩

theorem fadd_nan_left (x : GoFloat) : fadd GoFloat.nan x = GoFloat.nan := by
  cases x <;> rfl

theorem fdiv_nan_left (x : GoFloat) : fdiv GoFloat.nan x = GoFloat.nan := by
  cases x <;> rfl

/-- Invariant of the similarity accumulation when the left vector is
all zeros: the `aMagnitude` sum stays zero, and the dot product is
either NaN (a non-finite right component was met) or zero with a
nonnegative real `bMagnitude` sum. -/
theorem simLoop_zero_left :
    ∀ (a b : List GoFloat) (d am bm : GoFloat),
      (∀ x ∈ a, x = GoFloat.real 0) → a.length = b.length →
      am = GoFloat.real 0 →
      (d = GoFloat.nan ∨
        (d = GoFloat.real 0 ∧ ∃ r : ℝ, 0 ≤ r ∧ bm = GoFloat.real r)) →
      (simLoop a b d am bm).2.1 = GoFloat.real 0 ∧
      ((simLoop a b d am bm).1 = GoFloat.nan ∨
        ((simLoop a b d am bm).1 = GoFloat.real 0 ∧
          ∃ r : ℝ, 0 ≤ r ∧ (simLoop a b d am bm).2.2 = GoFloat.real r)) := by
  intro a
  induction a with
  | nil =>
    intro b d am bm _ hlen ham hinv
    cases b with
    | nil => exact ⟨by simpa [simLoop] using ham, by simpa [simLoop] using hinv⟩
    | cons y ys => simp at hlen
  | cons x xs ih =>
    intro b d am bm hz hlen ham hinv
    cases b with
    | nil => simp at hlen
    | cons y ys =>
      have hx : x = GoFloat.real 0 := hz x (by simp)
      subst hx
      subst ham
      simp only [simLoop]
      have ham' : fadd (GoFloat.real 0) (fmul (GoFloat.real 0) (GoFloat.real 0))
          = GoFloat.real 0 := by
        rw [fmul_real, fadd_real]; norm_num
      rw [ham']
      apply ih ys _ _ _ (fun z hzz => hz z (by simp [hzz])) (by simpa using hlen) rfl
      rcases fmul_zero_left y with hm | ⟨v, hy, hm⟩
      · rw [hm, fadd_nan_right]
        exact Or.inl rfl
      · rcases hinv with hd | ⟨hd, r, hr, hbm⟩
        · rw [hd, fadd_nan_left]
          exact Or.inl rfl
        · subst hd
          subst hy
          subst hbm
          right
          constructor
          · rw [hm, fadd_real]; norm_num
          · refine ⟨r + v * v, add_nonneg hr (mul_self_nonneg v), ?_⟩
            rw [fmul_real, fadd_real]

/-- Mirror invariant when the right vector is all zeros. -/
theorem simLoop_zero_right :
    ∀ (a b : List GoFloat) (d am bm : GoFloat),
      (∀ y ∈ b, y = GoFloat.real 0) → a.length = b.length →
      bm = GoFloat.real 0 →
      (d = GoFloat.nan ∨
        (d = GoFloat.real 0 ∧ ∃ r : ℝ, 0 ≤ r ∧ am = GoFloat.real r)) →
      (simLoop a b d am bm).2.2 = GoFloat.real 0 ∧
      ((simLoop a b d am bm).1 = GoFloat.nan ∨
        ((simLoop a b d am bm).1 = GoFloat.real 0 ∧
          ∃ r : ℝ, 0 ≤ r ∧ (simLoop a b d am bm).2.1 = GoFloat.real r)) := by
  intro a
  induction a with
  | nil =>
    intro b d am bm _ hlen hbm hinv
    cases b with
    | nil => exact ⟨by simpa [simLoop] using hbm, by simpa [simLoop] using hinv⟩
    | cons y ys => simp at hlen
  | cons x xs ih =>
    intro b d am bm hz hlen hbm hinv
    cases b with
    | nil => simp at hlen
    | cons y ys =>
      have hy : y = GoFloat.real 0 := hz y (by simp)
      subst hy
      subst hbm
      simp only [simLoop]
      have hbm' : fadd (GoFloat.real 0) (fmul (GoFloat.real 0) (GoFloat.real 0))
          = GoFloat.real 0 := by
        rw [fmul_real, fadd_real]; norm_num
      rw [hbm']
      apply ih ys _ _ _ (fun z hzz => hz z (by simp [hzz])) (by simpa using hlen) rfl
      rcases fmul_zero_right x with hm | ⟨v, hxv, hm⟩
      · rw [hm, fadd_nan_right]
        exact Or.inl rfl
      · rcases hinv with hd | ⟨hd, r, hr, hamr⟩
        · rw [hd, fadd_nan_left]
          exact Or.inl rfl
        · subst hd
          subst hxv
          subst hamr
          right
          constructor
          · rw [hm, fadd_real]; norm_num
          · refine ⟨r + v * v, add_nonneg hr (mul_self_nonneg v), ?_⟩
            rw [fmul_real, fadd_real]

/-- A reference in the scan's output was in the accumulator or passed
the threshold comparison with its own score. -/
theorem findLoop_mem (threshold : GoFloat) (e : List GoFloat) :
    ∀ (store acc res : List Reference),
      FindReferenceLoop threshold e acc store = some res →
      ∀ r ∈ res, r ∈ acc ∨
        ∃ s, CalculateSimilarity e r.embedding = some s ∧ fgt s threshold = true := by
  intro store
  induction store with
  | nil =>
    intro acc res h r hr
    rw [FindReferenceLoop] at h
    injection h with h
    subst h
    exact Or.inl hr
  | cons q rest ih =>
    intro acc res h r hr
    rw [FindReferenceLoop] at h
    cases hcs : CalculateSimilarity e q.embedding with
    | none => rw [hcs] at h; exact absurd h (by simp)
    | some s =>
      rw [hcs] at h
      cases hf : fgt s threshold with
      | true =>
        simp only [hf, if_true] at h
        rcases ih (acc ++ [q]) res h r hr with hmem | hex
        · rcases List.mem_append.mp hmem with h1 | h2
          · exact Or.inl h1
          · have : r = q := by simpa using h2
            subst this
            exact Or.inr ⟨s, hcs, hf⟩
        · exact Or.inr hex
      | false =>
        simp only [hf, Bool.false_eq_true, if_false] at h
        exact ih acc res h r hr

/-- C10: for equal-dimension vectors, a zero-magnitude operand makes
the unguarded division of `CalculateSimilarity` produce NaN; and the
similarity scan never includes a reference whose score is NaN, because
`>` against the threshold is false on NaN. -/
theorem nan_similarity_never_retrieved :
    (∀ a b : List GoFloat, a.length = b.length →
        ((∀ x ∈ a, x = GoFloat.real 0) ∨ (∀ y ∈ b, y = GoFloat.real 0)) →
        CalculateSimilarity a b = some GoFloat.nan)
    ∧ (∀ (threshold : GoFloat) (e : List GoFloat) (store res : List Reference),
        FindReferenceLoop threshold e [] store = some res →
        ∀ r ∈ res, CalculateSimilarity e r.embedding ≠ some GoFloat.nan) := by
  constructor
  · intro a b hlen hz
    unfold CalculateSimilarity
    rw [if_pos (le_of_eq hlen)]
    rcases hz with hza | hzb
    · have key := simLoop_zero_left a b (GoFloat.real 0) (GoFloat.real 0)
        (GoFloat.real 0) hza hlen rfl
        (Or.inr ⟨rfl, 0, le_refl 0, rfl⟩)
      rcases hsl : simLoop a b (GoFloat.real 0) (GoFloat.real 0) (GoFloat.real 0)
        with ⟨d, am, bm⟩
      rw [hsl] at key
      obtain ⟨ham, hinv⟩ := key
      simp only at ham hinv
      rcases hinv with hd | ⟨hd, r, hr, hbm⟩
      · rw [hd]
        show some (fdiv GoFloat.nan (fmul (fsqrt am) (fsqrt bm))) = some GoFloat.nan
        rw [fdiv_nan_left]
      · rw [hd, ham, hbm]
        show some (fdiv (GoFloat.real 0)
          (fmul (fsqrt (GoFloat.real 0)) (fsqrt (GoFloat.real r)))) = some GoFloat.nan
        rw [fsqrt_real_zero, fsqrt_real_nonneg r hr, fmul_real,
          zero_mul, fdiv_zero_zero]
    · have key := simLoop_zero_right a b (GoFloat.real 0) (GoFloat.real 0)
        (GoFloat.real 0) hzb hlen rfl
        (Or.inr ⟨rfl, 0, le_refl 0, rfl⟩)
      rcases hsl : simLoop a b (GoFloat.real 0) (GoFloat.real 0) (GoFloat.real 0)
        with ⟨d, am, bm⟩
      rw [hsl] at key
      obtain ⟨hbm, hinv⟩ := key
      simp only at hbm hinv
      rcases hinv with hd | ⟨hd, r, hr, ham⟩
      · rw [hd]
        show some (fdiv GoFloat.nan (fmul (fsqrt am) (fsqrt bm))) = some GoFloat.nan
        rw [fdiv_nan_left]
      · rw [hd, ham, hbm]
        show some (fdiv (GoFloat.real 0)
          (fmul (fsqrt (GoFloat.real r)) (fsqrt (GoFloat.real 0)))) = some GoFloat.nan
        rw [fsqrt_real_zero, fsqrt_real_nonneg r hr, fmul_real,
          mul_zero, fdiv_zero_zero]
  · intro threshold e store res h r hr hnan
    rcases findLoop_mem threshold e store [] res h r hr with hmem | ⟨s, hs, hf⟩
    · simp at hmem
    · rw [hs] at hnan
      injection hnan with hsn
      rw [hsn, fgt_nan_left] at hf
      exact Bool.false_ne_true hf

/-- The similarity of the one-dimensional unit vector with itself is
the real value 1. -/
theorem calc_sim_unit :
    CalculateSimilarity [GoFloat.real 1] [GoFloat.real 1] = some (GoFloat.real 1) := by
  have h1 : simLoop [GoFloat.real 1] [GoFloat.real 1]
      (GoFloat.real 0) (GoFloat.real 0) (GoFloat.real 0)
      = (GoFloat.real 1, GoFloat.real 1, GoFloat.real 1) := by
    simp only [simLoop, fadd_real, fmul_real]
    norm_num
  unfold CalculateSimilarity
  rw [if_pos (by simp), h1]
  show some (fdiv (GoFloat.real 1)
    (fmul (fsqrt (GoFloat.real 1)) (fsqrt (GoFloat.real 1)))) = some (GoFloat.real 1)
  rw [fsqrt_real_nonneg 1 (by norm_num), Real.sqrt_one, fmul_real, mul_one]
  rw [show fdiv (GoFloat.real 1) (GoFloat.real 1) = GoFloat.real 1 by
    simp [fdiv]]

/-- The float comparison `1 > 0.5` is true. -/
theorem fgt_one_half : fgt (GoFloat.real 1) similarityThreshold = true := by
  rw [similarityThreshold]
  simp only [fgt]
  norm_num

/-- The scan over a one-fact store with a matching unit embedding
returns that fact. -/
theorem find_loop_unit (name ex : String) :
    FindReferenceLoop similarityThreshold [GoFloat.real 1] []
      [⟨name, ex, [GoFloat.real 1]⟩]
      = some [⟨name, ex, [GoFloat.real 1]⟩] := by
  rw [FindReferenceLoop]
  rw [show (⟨name, ex, [GoFloat.real 1]⟩ : Reference).embedding
    = [GoFloat.real 1] from rfl]
  rw [calc_sim_unit]
  simp only [fgt_one_half, if_true]
  rw [FindReferenceLoop]
  simp

/-- Witness for C10: the zero vector against the unit vector scores
NaN; the unit fact retrieved by `find_loop_unit` has a non-NaN score. -/
theorem nan_similarity_never_retrieved_witness :
    CalculateSimilarity [GoFloat.real 0] [GoFloat.real 1] = some GoFloat.nan
    ∧ CalculateSimilarity [GoFloat.real 1]
        (⟨"sky.txt", "S", [GoFloat.real 1]⟩ : Reference).embedding
        ≠ some GoFloat.nan :=
  ⟨nan_similarity_never_retrieved.1 _ _ (by simp) (Or.inl (by simp)),
   nan_similarity_never_retrieved.2 similarityThreshold _ _ _
     (find_loop_unit "sky.txt" "S") _ (by simp)⟩

/-- The pairwise accumulation only ever reads the first `len(a)`
components of `b` (the loop bound is `len(a)`). -/
theorem simLoop_take :
    ∀ (a b : List GoFloat) (d am bm : GoFloat),
      simLoop a b d am bm = simLoop a (b.take a.length) d am bm := by
  intro a
  induction a with
  | nil => intro b d am bm; cases b <;> simp [simLoop]
  | cons x xs ih =>
    intro b d am bm
    cases b with
    | nil => simp [simLoop]
    | cons y ys =>
      simp only [List.length_cons, List.take_succ_cons, simLoop]
      exact ih ys _ _ _

/-- C7 counterexample: at concrete mismatched dimensions no
`SimilarityError` is raised: with the shorter vector first a score (1)
is produced silently, with the longer vector first the computation
panics. -/
theorem dim_mismatch_no_error_cex :
    CalculateSimilarity [GoFloat.real 1] [GoFloat.real 1, GoFloat.real 1]
      = some (GoFloat.real 1)
    ∧ CalculateSimilarity [GoFloat.real 1, GoFloat.real 0] [GoFloat.real 1] = none := by
  constructor
  · have h1 : simLoop [GoFloat.real 1] [GoFloat.real 1, GoFloat.real 1]
        (GoFloat.real 0) (GoFloat.real 0) (GoFloat.real 0)
        = (GoFloat.real 1, GoFloat.real 1, GoFloat.real 1) := by
      simp only [simLoop, fadd_real, fmul_real]
      norm_num
    unfold CalculateSimilarity
    rw [if_pos (by simp), h1]
    show some (fdiv (GoFloat.real 1)
      (fmul (fsqrt (GoFloat.real 1)) (fsqrt (GoFloat.real 1)))) = some (GoFloat.real 1)
    rw [fsqrt_real_nonneg 1 (by norm_num), Real.sqrt_one, fmul_real, mul_one]
    rw [show fdiv (GoFloat.real 1) (GoFloat.real 1) = GoFloat.real 1 by
      simp [fdiv]]
  · simp [CalculateSimilarity]

/-- C7 (amended): `CalculateSimilarity` performs no dimensionality
check and raises no `SimilarityError`: when `len(a) > len(b)` the
`b[i]` access panics with an out-of-range index, and when `len(a) ≤
len(b)` a score is silently computed using only the first `len(a)`
components of `b`. -/
theorem dim_mismatch_unchecked :
    (∀ a b : List GoFloat, b.length < a.length → CalculateSimilarity a b = none)
    ∧ (∀ a b : List GoFloat, a.length ≤ b.length →
        ∃ v, CalculateSimilarity a b = some v)
    ∧ (∀ a b : List GoFloat, a.length ≤ b.length →
        CalculateSimilarity a b = CalculateSimilarity a (b.take a.length)) := by
  refine ⟨?_, ?_, ?_⟩
  · intro a b h
    unfold CalculateSimilarity
    rw [if_neg (by omega)]
  · intro a b h
    exact calc_sim_some a b h
  · intro a b h
    unfold CalculateSimilarity
    rw [if_pos h, if_pos (by simpa using h), ← simLoop_take]

/-- Witness for C7 (amended) at concrete mismatched inputs. -/
theorem dim_mismatch_unchecked_witness :
    CalculateSimilarity [GoFloat.real 1, GoFloat.real 0] [GoFloat.real 1] = none
    ∧ (∃ v, CalculateSimilarity [GoFloat.real 0]
        [GoFloat.real 0, GoFloat.real 1] = some v)
    ∧ CalculateSimilarity [GoFloat.real 1] [GoFloat.real 1, GoFloat.real 1]
        = CalculateSimilarity [GoFloat.real 1]
            (List.take (List.length [GoFloat.real 1])
              [GoFloat.real 1, GoFloat.real 1]) :=
  ⟨dim_mismatch_unchecked.1 _ _ (by simp),
   dim_mismatch_unchecked.2.1 _ _ (by simp),
   dim_mismatch_unchecked.2.2 _ _ (by simp)⟩

/-- C4 counterexample: a non-success (HTTP 500) reply from the
embedding provider makes `GenerateEmbedding` terminate the whole
process (`log.Fatalf` in `doPost`); no failed-query error reaches the
request's caller. -/
theorem provider_failure_cex :
    GenerateEmbedding (Except.ok ⟨500, none⟩) = GoOutcome.fatalExit := rfl

/-- C4 (amended): every per-request provider failure — a transport
error or a non-200 status, on the embedding or the completion call —
runs `log.Fatalf` and so exits the process; the error is not isolated
to the request. -/
theorem provider_failure_fatal :
    (∀ r : HttpResponse, r.status ≠ 200 →
        doPost (Except.ok r) = GoOutcome.fatalExit)
    ∧ doPost (Except.error ()) = GoOutcome.fatalExit
    ∧ (∀ x : Except Unit HttpResponse, doPost x = GoOutcome.fatalExit →
        GenerateEmbedding x = GoOutcome.fatalExit)
    ∧ (∀ (complete : String → Except Unit HttpResponse) (text : String),
        doPost (complete text) = GoOutcome.fatalExit →
        GenerateCompletion complete text = GoOutcome.fatalExit) := by
  refine ⟨?_, rfl, ?_, ?_⟩
  · intro r h
    simp [doPost, h]
  · intro x h
    unfold GenerateEmbedding
    rw [h]
  · intro complete text h
    unfold GenerateCompletion
    rw [h]

/-- Witness for C4 (amended) at the concrete 500 response. -/
theorem provider_failure_fatal_witness :
    doPost (Except.ok (⟨500, none⟩ : HttpResponse)) = GoOutcome.fatalExit
    ∧ GenerateEmbedding (Except.error ()) = GoOutcome.fatalExit
    ∧ GenerateCompletion (fun _ => Except.error ()) "p" = GoOutcome.fatalExit :=
  ⟨provider_failure_fatal.1 ⟨500, none⟩ (by decide),
   provider_failure_fatal.2.2.1 _ rfl,
   provider_failure_fatal.2.2.2 _ "p" rfl⟩

theorem fromJSON_none {α : Type} (dec : Json → Except Unit α) :
    fromJSON dec none = GoOutcome.fatalExit := rfl

theorem fromJSON_some {α : Type} (dec : Json → Except Unit α) (j : Json) (v : α)
    (h : dec j = Except.ok v) : fromJSON dec (some j) = GoOutcome.ok v := by
  unfold fromJSON
  show (match dec j with
    | Except.error _ => GoOutcome.fatalExit
    | Except.ok v => GoOutcome.ok v) = GoOutcome.ok v
  rw [h]

/-- C3 counterexample: an empty `choices` list makes composition panic
at `Choices[0]`, and a content string that is not valid JSON makes the
process exit via `log.Fatalln` — at these concrete provider responses
no `CompositionError` value is returned to the caller. -/
theorem composition_failure_cex :
    GenerateCompletionWithCitations
      (fun _ => Except.ok ⟨200, some (Json.obj [("choices", Json.arr [])])⟩)
      (fun _ => none) "q" [] = GoOutcome.panicked
    ∧ GenerateCompletionWithCitations
      (fun _ => Except.ok ⟨200, some (Json.obj [("choices",
          Json.arr [Json.obj [("message",
            Json.obj [("content", Json.str "x")])]])])⟩)
      (fun _ => none) "q" [] = GoOutcome.fatalExit :=
  ⟨rfl, rfl⟩

/-- C3 (amended): composition never returns an error value to its
caller.  Content that is not valid JSON makes the process exit
(`log.Fatalln` inside `fromJSON`); an empty `choices` list panics at
`Choices[0]`; and a content object missing the required fields decodes
without any error into the zero-valued Answer (empty commentary, no
citations) — a silent empty Answer. -/
theorem composition_failure_modes :
    (∀ (contentLex : String → Option Json) (s : String), contentLex s = none →
        ParseCitedContent contentLex (GoOutcome.ok s) = GoOutcome.fatalExit)
    ∧ (∀ (complete : String → Except Unit HttpResponse) (text : String)
        (j : Json) (cr : CompletionResponse),
        doPost (complete text) = GoOutcome.ok (some j) →
        decodeCompletionResponse j = Except.ok cr → cr.choices = [] →
        GenerateCompletion complete text = GoOutcome.panicked)
    ∧ decodeCitedResponse (Json.obj []) = Except.ok ⟨"", []⟩ := by
  refine ⟨?_, ?_, rfl⟩
  · intro contentLex s h
    unfold ParseCitedContent
    show fromJSON decodeCitedResponse (contentLex s) = GoOutcome.fatalExit
    rw [h, fromJSON_none]
  · intro complete text j cr h1 h2 h3
    unfold GenerateCompletion
    rw [h1]
    show (match fromJSON decodeCompletionResponse (some j) with
      | GoOutcome.fatalExit => GoOutcome.fatalExit
      | GoOutcome.panicked => GoOutcome.panicked
      | GoOutcome.ok cr => contentOf cr) = GoOutcome.panicked
    rw [fromJSON_some decodeCompletionResponse j cr h2]
    show contentOf cr = GoOutcome.panicked
    unfold contentOf
    rw [h3]

/-- C3 witness: the two failure modes at their concrete inputs. -/
theorem composition_failure_modes_witness :
    ParseCitedContent (fun _ => none) (GoOutcome.ok "") = GoOutcome.fatalExit
    ∧ GenerateCompletion
        (fun _ => Except.ok ⟨200, some (Json.obj [("choices", Json.arr [])])⟩) "p"
        = GoOutcome.panicked :=
  ⟨composition_failure_modes.1 (fun _ => none) "" rfl,
   composition_failure_modes.2.1 _ "p" (Json.obj [("choices", Json.arr [])])
     ⟨[]⟩ rfl rfl rfl⟩

theorem str_append_assoc (a b c : String) : (a ++ b) ++ c = a ++ (b ++ c) := by
  rcases a with ⟨la⟩
  rcases b with ⟨lb⟩
  rcases c with ⟨lc⟩
  show String.mk ((la ++ lb) ++ lc) = String.mk (la ++ (lb ++ lc))
  rw [List.append_assoc]

/-- C8 (amended): the prompt sent to the Completion Client contains
the instruction that citations are impossible without references for
every candidate set, the empty one included (the sentence is
unconditional static template text) — but zero Citations are not
enforced: the composed Answer carries exactly the citations that the
model's content decodes to. -/
theorem empty_candidates_instruction_only :
    (∀ (query : String) (refs : List Reference), ∃ s t,
        RenderResponsePrompt query refs
          = s ++ "If NO REFERENCES are provided, it is impossible to provide citations."
              ++ t)
    ∧ (∀ (contentLex : String → Option Json) (s : String) (j : Json)
        (r : CitedResponse),
        contentLex s = some j → decodeCitedResponse j = Except.ok r →
        ParseCitedContent contentLex (GoOutcome.ok s) = GoOutcome.ok r) := by
  constructor
  · intro query refs
    refine ⟨"\nINSTRUCTIONS\n\nRespond to the following QUERY using REFERENCES below. Cite the a file in the\nREFERENCES that contains the fact used. Provide uncited commentary separately.\n",
      "\n\nQUERY\n\n" ++ (htmlEscape query ++ ("\n\nREFERENCES\n\n" ++
        (String.join (refs.map (fun r =>
          "\n- File: " ++ htmlEscape r.file ++ "\n- Exerpt: " ++ htmlEscape r.exerpt ++ "\n")) ++
          "\n\nJSON RESPONSE TEMPLATE\n\n\x7b\n\t\"commentary\": \"<summary commentary without citations>\",\n\t\"citations\": [\n\t\t\x7b\n\t\t\t\"claim\": \"<summary claim 1>\",\n\t\t\t\"references\": [\n\t\t\t\t\x7b\"exerpt\": \"<exerpt>\", \"file\": \"<file-name-1.txt>\"\x7d,\n\t\t\t\t\x7b\"exerpt\": \"<exerpt>\", \"file\": \"<file-name-2.txt>\"\x7d,\n\t\t\t\t\x7b\"exerpt\": \"<exerpt>\", \"file\": \"<file-name-3.txt>\"\x7d,\n\t\t\t]\n\t\t\x7d,\n\t]\n\x7d\n"))), ?_⟩
    simp only [RenderResponsePrompt, str_append_assoc]
  · intro contentLex s j r h1 h2
    unfold ParseCitedContent
    show fromJSON decodeCitedResponse (contentLex s) = GoOutcome.ok r
    rw [h1, fromJSON_some decodeCitedResponse j r h2]

/-- C8 counterexample: with an empty candidate set, a model content
that decodes to one citation yields an Answer with one Citation, not
zero — the code does not enforce commentary-only answers. -/
theorem empty_candidates_citations_cex :
    GenerateCompletionWithCitations
      (fun _ => Except.ok ⟨200, some (Json.obj [("choices",
          Json.arr [Json.obj [("message",
            Json.obj [("content", Json.str "c")])]])])⟩)
      (fun _ => some (Json.obj [("commentary", Json.str "note"),
        ("citations", Json.arr [Json.obj [("claim", Json.str "claim"),
          ("references", Json.arr [Json.obj [("exerpt", Json.str "e"),
            ("file", Json.str "ghost.txt")]])]])]))
      "q" []
      = GoOutcome.ok ⟨"note", [⟨"claim", [⟨"ghost.txt", "e", []⟩]⟩]⟩
    ∧ ([⟨"claim", [⟨"ghost.txt", "e", []⟩]⟩] : List Citation).length ≠ 0 :=
  ⟨rfl, by decide⟩

/-- C8 witness: instruction present for the empty candidate set; a
decoded zero-valued answer is returned unchanged. -/
theorem empty_candidates_instruction_only_witness :
    (∃ s t, RenderResponsePrompt "q" []
        = s ++ "If NO REFERENCES are provided, it is impossible to provide citations."
            ++ t)
    ∧ ParseCitedContent (fun _ => some (Json.obj [])) (GoOutcome.ok "x")
        = GoOutcome.ok ⟨"", []⟩ :=
  ⟨empty_candidates_instruction_only.1 "q" [],
   empty_candidates_instruction_only.2 _ "x" (Json.obj []) ⟨"", []⟩ rfl rfl⟩

/-- The embedding provider's reply carrying the one-dimensional unit
vector decodes to `[1.0]`. -/
theorem embed_unit_ok :
    GenerateEmbedding (Except.ok ⟨200, some (Json.obj [("data",
      Json.arr [Json.obj [("embedding", Json.arr [Json.num 1])]])])⟩)
      = GoOutcome.ok [GoFloat.real 1] := by
  have h : GenerateEmbedding (Except.ok ⟨200, some (Json.obj [("data",
      Json.arr [Json.obj [("embedding", Json.arr [Json.num 1])]])])⟩)
      = GoOutcome.ok [GoFloat.real ((1 : ℚ) : ℝ)] := rfl
  rw [h]
  norm_num

/-- The embedding provider's reply carrying the one-dimensional zero
vector decodes to `[0.0]`. -/
theorem embed_zero_ok :
    GenerateEmbedding (Except.ok ⟨200, some (Json.obj [("data",
      Json.arr [Json.obj [("embedding", Json.arr [Json.num 0])]])])⟩)
      = GoOutcome.ok [GoFloat.real 0] := by
  have h : GenerateEmbedding (Except.ok ⟨200, some (Json.obj [("data",
      Json.arr [Json.obj [("embedding", Json.arr [Json.num 0])]])])⟩)
      = GoOutcome.ok [GoFloat.real ((0 : ℚ) : ℝ)] := rfl
  rw [h]
  norm_num

/-- Running `FindReference` on a one-fact store whose embedding equals the
query's unit embedding returns that fact. -/
theorem find_reference_unit (q name ex : String) :
    FindReference
      (fun _ => Except.ok ⟨200, some (Json.obj [("data",
        Json.arr [Json.obj [("embedding", Json.arr [Json.num 1])]])])⟩)
      [⟨name, ex, [GoFloat.real 1]⟩] q
      = GoOutcome.ok [⟨name, ex, [GoFloat.real 1]⟩] := by
  unfold FindReference
  show (match GenerateEmbedding (Except.ok ⟨200, some (Json.obj [("data",
      Json.arr [Json.obj [("embedding", Json.arr [Json.num 1])]])])⟩) with
    | GoOutcome.fatalExit => GoOutcome.fatalExit
    | GoOutcome.panicked => GoOutcome.panicked
    | GoOutcome.ok e =>
        match FindReferenceLoop similarityThreshold e [] [⟨name, ex, [GoFloat.real 1]⟩] with
        | none => GoOutcome.panicked
        | some result => GoOutcome.ok result)
    = GoOutcome.ok [⟨name, ex, [GoFloat.real 1]⟩]
  rw [embed_unit_ok]
  show (match FindReferenceLoop similarityThreshold [GoFloat.real 1] []
      [⟨name, ex, [GoFloat.real 1]⟩] with
    | none => GoOutcome.panicked
    | some result => GoOutcome.ok result)
    = GoOutcome.ok [⟨name, ex, [GoFloat.real 1]⟩]
  rw [find_loop_unit name ex]

/-- C2 (code bug): two expanded queries that both match the same
stored fact make the retrieval loop of `Handler` hand that fact to the
composer twice: the inner duplicate check of `FindReference`
(main.go:342-346) is dead code, and the cross-query `append`
deduplicates nothing, so the candidate set has a duplicate
identifier. -/
theorem retrieval_duplicates_same_fact :
    RetrieveAll
      (fun _ => Except.ok ⟨200, some (Json.obj [("data",
        Json.arr [Json.obj [("embedding", Json.arr [Json.num 1])]])])⟩)
      [⟨"f.txt", "fact", [GoFloat.real 1]⟩] ["q1", "q2"] []
      = GoOutcome.ok [⟨"f.txt", "fact", [GoFloat.real 1]⟩,
          ⟨"f.txt", "fact", [GoFloat.real 1]⟩]
    ∧ ¬ (List.map Reference.file
          [(⟨"f.txt", "fact", [GoFloat.real 1]⟩ : Reference),
           ⟨"f.txt", "fact", [GoFloat.real 1]⟩]).Nodup := by
  constructor
  · rw [RetrieveAll, find_reference_unit "q1" "f.txt" "fact"]
    show RetrieveAll
      (fun _ => Except.ok ⟨200, some (Json.obj [("data",
        Json.arr [Json.obj [("embedding", Json.arr [Json.num 1])]])])⟩)
      [⟨"f.txt", "fact", [GoFloat.real 1]⟩] ["q2"]
      ([] ++ [⟨"f.txt", "fact", [GoFloat.real 1]⟩])
      = GoOutcome.ok [⟨"f.txt", "fact", [GoFloat.real 1]⟩,
          ⟨"f.txt", "fact", [GoFloat.real 1]⟩]
    rw [List.nil_append, RetrieveAll, find_reference_unit "q2" "f.txt" "fact"]
    show RetrieveAll
      (fun _ => Except.ok ⟨200, some (Json.obj [("data",
        Json.arr [Json.obj [("embedding", Json.arr [Json.num 1])]])])⟩)
      [⟨"f.txt", "fact", [GoFloat.real 1]⟩] []
      ([⟨"f.txt", "fact", [GoFloat.real 1]⟩] ++ [⟨"f.txt", "fact", [GoFloat.real 1]⟩])
      = GoOutcome.ok [⟨"f.txt", "fact", [GoFloat.real 1]⟩,
          ⟨"f.txt", "fact", [GoFloat.real 1]⟩]
    rw [RetrieveAll]
    rfl
  · simp

/-- The zero query vector scores NaN against the unit vector
(`0 / (0 * 1) = 0/0`). -/
theorem calc_sim_zero_unit :
    CalculateSimilarity [GoFloat.real 0] [GoFloat.real 1] = some GoFloat.nan := by
  have h1 : simLoop [GoFloat.real 0] [GoFloat.real 1]
      (GoFloat.real 0) (GoFloat.real 0) (GoFloat.real 0)
      = (GoFloat.real 0, GoFloat.real 0, GoFloat.real 1) := by
    simp only [simLoop, fadd_real, fmul_real]
    norm_num
  unfold CalculateSimilarity
  rw [if_pos (by simp), h1]
  show some (fdiv (GoFloat.real 0)
    (fmul (fsqrt (GoFloat.real 0)) (fsqrt (GoFloat.real 1)))) = some GoFloat.nan
  rw [fsqrt_real_zero, fsqrt_real_nonneg 1 (by norm_num), Real.sqrt_one,
    fmul_real, zero_mul, fdiv_zero_zero]

/-- The scan with the zero query embedding misses the unit fact (its
NaN score fails the threshold comparison). -/
theorem find_loop_zero_miss (name ex : String) :
    FindReferenceLoop similarityThreshold [GoFloat.real 0] []
      [⟨name, ex, [GoFloat.real 1]⟩] = some [] := by
  rw [FindReferenceLoop]
  rw [show (⟨name, ex, [GoFloat.real 1]⟩ : Reference).embedding
    = [GoFloat.real 1] from rfl]
  rw [calc_sim_zero_unit]
  simp only [fgt_nan_left, Bool.false_eq_true, if_false]
  rw [FindReferenceLoop]

/-- An embedding client for the expansion scenario: the original query
embeds to the unit vector (matching the stored fact), every other
string to the zero vector (matching nothing). -/
def embedOrig : String → Except Unit HttpResponse := fun q =>
  if q = "why is the sky blue?" then
    Except.ok ⟨200, some (Json.obj [("data",
      Json.arr [Json.obj [("embedding", Json.arr [Json.num 1])]])])⟩
  else
    Except.ok ⟨200, some (Json.obj [("data",
      Json.arr [Json.obj [("embedding", Json.arr [Json.num 0])]])])⟩

/-- Running `FindReference` under `embedOrig` misses the unit fact for any
query other than the original. -/
theorem find_reference_orig_miss (q name ex : String)
    (h : embedOrig q = Except.ok ⟨200, some (Json.obj [("data",
      Json.arr [Json.obj [("embedding", Json.arr [Json.num 0])]])])⟩) :
    FindReference embedOrig [⟨name, ex, [GoFloat.real 1]⟩] q = GoOutcome.ok [] := by
  unfold FindReference
  rw [h, embed_zero_ok]
  show (match FindReferenceLoop similarityThreshold [GoFloat.real 0] []
      [⟨name, ex, [GoFloat.real 1]⟩] with
    | none => GoOutcome.panicked
    | some result => GoOutcome.ok result) = GoOutcome.ok []
  rw [find_loop_zero_miss name ex]

/-- C5 (code bug): the queries used for retrieval are exactly
`ExpandQuery(query).Queries` — the original query is not added.  With
an expansion reply `["v1", "v2"]`, retrieval over those two variants
(which embed to the zero vector) returns nothing, although
`FindReference` on the original query itself would return the stored
fact. -/
theorem original_query_not_in_retrieval :
    ExpandQuery
      (fun _ => Except.ok ⟨200, some (Json.obj [("choices",
        Json.arr [Json.obj [("message",
          Json.obj [("content", Json.str "payload")])]])])⟩)
      (fun _ => some (Json.obj [("queries",
        Json.arr [Json.str "v1", Json.str "v2"])]))
      "why is the sky blue?"
      = GoOutcome.ok ⟨["v1", "v2"]⟩
    ∧ "why is the sky blue?" ∉ (["v1", "v2"] : List String)
    ∧ RetrieveAll embedOrig
        [⟨"sky.txt", "the sky is blue due to Rayleigh scattering", [GoFloat.real 1]⟩]
        ["v1", "v2"] [] = GoOutcome.ok []
    ∧ FindReference embedOrig
        [⟨"sky.txt", "the sky is blue due to Rayleigh scattering", [GoFloat.real 1]⟩]
        "why is the sky blue?"
        = GoOutcome.ok
          [⟨"sky.txt", "the sky is blue due to Rayleigh scattering", [GoFloat.real 1]⟩] := by
  refine ⟨rfl, by decide, ?_, ?_⟩
  · rw [RetrieveAll, find_reference_orig_miss "v1" _ _ rfl]
    show RetrieveAll embedOrig
      [⟨"sky.txt", "the sky is blue due to Rayleigh scattering", [GoFloat.real 1]⟩]
      ["v2"] ([] ++ []) = GoOutcome.ok []
    rw [List.nil_append, RetrieveAll, find_reference_orig_miss "v2" _ _ rfl]
    show RetrieveAll embedOrig
      [⟨"sky.txt", "the sky is blue due to Rayleigh scattering", [GoFloat.real 1]⟩]
      [] ([] ++ []) = GoOutcome.ok []
    rw [RetrieveAll]
    rfl
  · unfold FindReference
    rw [show embedOrig "why is the sky blue?" = Except.ok ⟨200, some (Json.obj [("data",
      Json.arr [Json.obj [("embedding", Json.arr [Json.num 1])]])])⟩ from rfl]
    rw [embed_unit_ok]
    show (match FindReferenceLoop similarityThreshold [GoFloat.real 1] []
        [⟨"sky.txt", "the sky is blue due to Rayleigh scattering", [GoFloat.real 1]⟩] with
      | none => GoOutcome.panicked
      | some result => GoOutcome.ok result)
      = GoOutcome.ok
        [⟨"sky.txt", "the sky is blue due to Rayleigh scattering", [GoFloat.real 1]⟩]
    rw [find_loop_unit "sky.txt" "the sky is blue due to Rayleigh scattering"]

/-- C1 (code bug): `Handler` performs no citation verification.  The
composed answer is returned for rendering unchanged — no per-Reference
existence outcome exists anywhere in the pipeline — even when it cites
the identifier `ghost.txt`, which is absent from the fact store. -/
theorem citations_not_verified :
    Handler
      (fun _ => Except.ok ⟨200, some (Json.obj [("choices",
        Json.arr [Json.obj [("message",
          Json.obj [("content", Json.str "payload")])]])])⟩)
      (fun _ => some (Json.obj [("queries", Json.arr []),
        ("commentary", Json.str "note"),
        ("citations", Json.arr [Json.obj [("claim", Json.str "the claim"),
          ("references", Json.arr [Json.obj [("exerpt", Json.str "e"),
            ("file", Json.str "ghost.txt")]])]])]))
      (fun _ => Except.error ())
      [⟨"a.txt", "fact A", [GoFloat.real 1]⟩]
      HttpMethod.post "q"
      = GoOutcome.ok (some ⟨"note", [⟨"the claim", [⟨"ghost.txt", "e", []⟩]⟩]⟩)
    ∧ storeHas [⟨"a.txt", "fact A", [GoFloat.real 1]⟩] "ghost.txt" = false :=
  ⟨rfl, rfl⟩

/-- Serving requests never changes the server state: `Handler` only
reads the store (its own `references` is a fresh local). -/
theorem serve_requests_id (complete : String → Except Unit HttpResponse)
    (contentLex : String → Option Json)
    (embed : String → Except Unit HttpResponse) :
    ∀ (s : ServerState) (requests : List (HttpMethod × String)),
      ServeRequests complete contentLex embed s requests = s := by
  intro s requests
  induction requests generalizing s with
  | nil => rfl
  | cons r rs ih =>
    rw [ServeRequests]
    exact ih s

/-- C9: the fact store is populated once by `LoadReferences` and is
read-only thereafter — after serving any sequence of requests the
state's references are exactly the ones the load produced. -/
theorem store_read_only_after_load
    (embedL : String → Except Unit HttpResponse) (files : List DirEntry)
    (refs : List Reference)
    (_h : LoadReferences embedL files [] = GoOutcome.ok refs)
    (complete : String → Except Unit HttpResponse)
    (contentLex : String → Option Json)
    (embed : String → Except Unit HttpResponse)
    (requests : List (HttpMethod × String)) :
    ServeRequests complete contentLex embed ⟨refs⟩ requests = ⟨refs⟩ :=
  serve_requests_id complete contentLex embed ⟨refs⟩ requests

/-- C9 witness: load one file, then serve a POST and a GET. -/
theorem store_read_only_after_load_witness :
    LoadReferences (fun _ => Except.ok ⟨200, some (Json.obj [("data",
      Json.arr [Json.obj [("embedding", Json.arr [Json.num 1])]])])⟩)
      [⟨"a.txt", false, "fact A"⟩] []
      = GoOutcome.ok [⟨"a.txt", "fact A", [GoFloat.real ((1 : ℚ) : ℝ)]⟩]
    ∧ ServeRequests (fun _ => Except.error ()) (fun _ => none)
        (fun _ => Except.error ())
        ⟨[⟨"a.txt", "fact A", [GoFloat.real ((1 : ℚ) : ℝ)]⟩]⟩
        [(HttpMethod.post, "q"), (HttpMethod.get, "")]
        = ⟨[⟨"a.txt", "fact A", [GoFloat.real ((1 : ℚ) : ℝ)]⟩]⟩ :=
  ⟨rfl,
   store_read_only_after_load
     (fun _ => Except.ok ⟨200, some (Json.obj [("data",
       Json.arr [Json.obj [("embedding", Json.arr [Json.num 1])]])])⟩)
     [⟨"a.txt", false, "fact A"⟩]
     [⟨"a.txt", "fact A", [GoFloat.real ((1 : ℚ) : ℝ)]⟩]
     rfl _ _ _ _⟩
